import Mathlib

/-!
Shallow embedding of the Sync Orchestration Engine of the SalesTrack backend
(`backend/app/services/daily_sync_service.py`, `backend/app/api/v1/sync.py`,
`backend/app/models/daily_sync.py`).

Modelling conventions:
* timestamps and durations are rationals (hours since an arbitrary epoch);
  `datetime.now(timezone.utc)` becomes an explicit `now : ℚ` argument,
  `timedelta(hours=h)` becomes the rational `h`;
* `uuid.uuid4()` becomes an explicit fresh `Nat` argument;
* the SQLAlchemy session becomes an explicit `DB` record of lists, one list
  per table; `query(...).filter(...).first()` becomes `List.find?`,
  `order_by(desc(completed_at)).first()` becomes a fold picking the record
  with the greatest `completed_at`; mutating the object returned by
  `.first()` becomes `updateFirst`;
* exceptions raised by the external collaborators (YouTube fetches, the
  metrics collector, per-row storage failures) are injected through a
  `SyncEnv` record; a Python function that catches all exceptions and
  returns a value becomes a total Lean function over that environment.
-/

/-- A row of `daily_youtube_syncs` (`DailyYouTubeSync` in
`app/models/daily_sync.py`).  `sync_id` is the uuid primary key, modelled as
a `Nat`. -/
structure SyncRecord where
  sync_id : Nat
  channel_id : String
  sync_status : String
  started_at : ℚ
  completed_at : Option ℚ
  error_message : Option String
  videos_synced : Nat
  api_calls_made : Nat
  sync_duration_seconds : Option ℚ
deriving Repr, DecidableEq

/-- A row of `youtube_data_snapshots` (`YouTubeDataSnapshot`). -/
structure DataSnapshot where
  sync_id : Nat
  channel_id : String
  channel_title : String
  subscriber_count : Int
  view_count : Int
  video_count : Nat
  sync_timestamp : ℚ
deriving Repr, DecidableEq

/-- A row of `sync_configurations` (`SyncConfiguration`); column defaults
from the model declaration. -/
structure SyncConfiguration where
  channel_id : String
  sync_enabled : Bool
  sync_frequency_hours : Nat
  max_retries : Nat
  retry_delay_minutes : Nat
  daily_quota_limit : Nat
  quota_reset_hour : Nat
  keep_snapshots_days : Nat
  notify_on_failure : Bool
deriving Repr, DecidableEq

/-- A row of `sync_metrics` (`SyncMetrics`).  The error-tracking columns
(`api_errors`, `rate_limit_hits`, `timeout_errors`) default to 0. -/
structure SyncMetrics where
  sync_id : Nat
  channel_id : String
  total_duration_seconds : ℚ
  api_calls_made : Nat
  videos_processed : Nat
  data_transferred_bytes : Nat
  videos_updated : Nat
  videos_added : Nat
  videos_removed : Nat
  api_errors : Nat
  rate_limit_hits : Nat
  timeout_errors : Nat
deriving Repr, DecidableEq

/-- A row of the local `videos` table (the fields `_update_video_records`
touches). -/
structure Video where
  video_id : String
  channel_id : String
  title : String
  view_count : Nat
  like_count : Nat
  comment_count : Nat
deriving Repr, DecidableEq

/-- A row of the local `channels` table (the fields `_update_channel_record`
touches). -/
structure Channel where
  channel_id : String
  title : String
  subscriber_count : Int
  view_count : Int
  video_count : Int
deriving Repr, DecidableEq

/-- One element of the `videos_data` list returned by
`youtube_service.get_all_channel_videos`; `video_id` is `Option` because the
code guards `if not video_id: continue` (a missing key or `""` is falsy). -/
structure VideoData where
  video_id : Option String
  title : String
  view_count : Nat
  like_count : Nat
  comment_count : Nat
deriving Repr, DecidableEq

/-- The dict returned by `youtube_service.get_channel_info`.  The snapshot
builder reads `snippet.title` / `statistics.subscriberCount` /
`statistics.viewCount` (with defaults), while `_update_channel_record` reads
the top-level keys `title` / `subscriber_count` / `view_count` /
`video_count` (absent keys keep the existing value). -/
structure ChannelData where
  snippetTitle : String
  statSubscriberCount : Int
  statViewCount : Int
  title : Option String
  subscriber_count : Option Int
  view_count : Option Int
  video_count : Option Int
deriving Repr, DecidableEq

/-- The database session state: one list per table, in insertion order. -/
structure DB where
  syncs : List SyncRecord
  snapshots : List DataSnapshot
  configs : List SyncConfiguration
  metrics : List SyncMetrics
  videos : List Video
  channels : List Channel
deriving Repr, DecidableEq

/-- Mutate the first element satisfying `p` (the embedding of
`query(...).first()` followed by attribute assignment; `None` finds nothing
and mutates nothing). -/
def updateFirst (p : α → Bool) (f : α → α) : List α → List α
  | [] => []
  | x :: xs => if p x then f x :: xs else x :: updateFirst p f xs

/-- `db.query(SyncConfiguration).filter(channel_id == c).first()`. -/
def findConfig (db : DB) (c : String) : Option SyncConfiguration :=
  db.configs.find? (fun g => g.channel_id == c)

/-- `db.query(DailyYouTubeSync).filter(channel_id == c ∧ sync_status ==
"running").first()`. -/
def findRunning (db : DB) (c : String) : Option SyncRecord :=
  db.syncs.find? (fun r => r.channel_id == c && r.sync_status == "running")

/-- `db.query(DailyYouTubeSync).filter(sync_id == sid).first()`. -/
def findSync (db : DB) (sid : Nat) : Option SyncRecord :=
  db.syncs.find? (fun r => r.sync_id == sid)

/-- The predicate of the completed-records query. -/
def isCompletedFor (c : String) (r : SyncRecord) : Bool :=
  r.channel_id == c && r.sync_status == "completed"

/-- Of two completed records, the one the `order_by(desc(completed_at))`
query ranks first (greater `completed_at` wins; a record with a
`completed_at` beats one without; ties keep the earlier row). -/
def laterCompleted (a b : SyncRecord) : SyncRecord :=
  match a.completed_at, b.completed_at with
  | some ta, some tb => if tb > ta then b else a
  | none, some _ => b
  | _, none => a

/-- `db.query(DailyYouTubeSync).filter(channel_id == c ∧ sync_status ==
"completed").order_by(desc(completed_at)).first()`. -/
def latestCompleted (db : DB) (c : String) : Option SyncRecord :=
  (db.syncs.filter (isCompletedFor c)).foldl
    (fun acc r =>
      match acc with
      | none => some r
      | some b => some (laterCompleted b r))
    none

/-- `DailySyncService.check_sync_needed` (daily_sync_service.py:34-64).
`exn = true` injects an exception from the storage layer: the surrounding
`try` turns any exception into `False`.  A completed record whose
`completed_at` is `NULL` would make `now - completed_at` raise a
`TypeError`, likewise caught and turned into `False`. -/
def check_sync_needed (exn : Bool) (db : DB) (now : ℚ) (channel_id : String) :
    Bool :=
  if exn then false
  else
    match findConfig db channel_id with
    | none => false
    | some sync_config =>
      if !sync_config.sync_enabled then false
      else
        match latestCompleted db channel_id with
        | none => true
        | some last_sync =>
          match last_sync.completed_at with
          | none => false
          | some t => decide (now - t ≥ (sync_config.sync_frequency_hours : ℚ))

/-- `DailySyncService.start_sync` (daily_sync_service.py:66-99).  `sync_id`
is the freshly generated uuid.  On the concurrency conflict the
`ValueError` propagates (the `except` clause re-raises) and the session is
unchanged; otherwise a new `running` record is committed and the `sync_id`
returned (the pipeline itself runs as a separate fire-and-forget task,
modelled by `perform_sync` below). -/
def start_sync (db : DB) (now : ℚ) (sync_id : Nat) (channel_id : String)
    (force : Bool) : Except String Nat × DB :=
  if (findRunning db channel_id).isSome && !force then
    (Except.error "Sync already running for this channel", db)
  else
    (Except.ok sync_id,
      { db with
          syncs := db.syncs ++
            [{ sync_id := sync_id
               channel_id := channel_id
               sync_status := "running"
               started_at := now
               completed_at := none
               error_message := none
               videos_synced := 0
               api_calls_made := 0
               sync_duration_seconds := none }] })

/-- One iteration body of `_update_video_records`: update-if-exists-else-
insert on `video_id` (daily_sync_service.py:204-230). -/
def upsertVideo (videos : List Video) (channel_id : String) (vd : VideoData)
    (vid : String) : List Video :=
  if (videos.find? (fun v => v.video_id == vid)).isSome then
    updateFirst (fun v => v.video_id == vid)
      (fun v =>
        { v with
            title := vd.title
            view_count := vd.view_count
            like_count := vd.like_count
            comment_count := vd.comment_count })
      videos
  else
    videos ++
      [{ video_id := vid
         channel_id := channel_id
         title := vd.title
         view_count := vd.view_count
         like_count := vd.like_count
         comment_count := vd.comment_count }]

/-- The loop of `_update_video_records` (daily_sync_service.py:198-232).
`upsertRaises vid = true` means the storage layer raises while upserting
that video; the single `try` around the WHOLE loop then catches it and the
function returns the count accumulated so far, abandoning the remaining
items.  Returns `(videos_updated, new videos table)`. -/
def updateVideoRecordsGo (upsertRaises : String → Bool) (channel_id : String) :
    List VideoData → List Video → Nat → Nat × List Video
  | [], videos, count => (count, videos)
  | vd :: rest, videos, count =>
    match vd.video_id with
    | none => updateVideoRecordsGo upsertRaises channel_id rest videos count
    | some vid =>
      if vid == "" then
        updateVideoRecordsGo upsertRaises channel_id rest videos count
      else if upsertRaises vid then (count, videos)
      else
        updateVideoRecordsGo upsertRaises channel_id rest
          (upsertVideo videos channel_id vd vid) (count + 1)

/-- `DailySyncService._update_video_records` (daily_sync_service.py:193-238). -/
def update_video_records (upsertRaises : String → Bool)
    (videos_data : List VideoData) (channel_id : String)
    (videos : List Video) : Nat × List Video :=
  updateVideoRecordsGo upsertRaises channel_id videos_data videos 0

/-- `DailySyncService._update_channel_record` (daily_sync_service.py:240-267).
`raises = true` injects a storage exception, which the function logs and
swallows, leaving the table unchanged. -/
def update_channel_record (raises : Bool) (channel_data : ChannelData)
    (channel_id : String) (channels : List Channel) : List Channel :=
  if raises then channels
  else if (channels.find? (fun ch => ch.channel_id == channel_id)).isSome then
    updateFirst (fun ch => ch.channel_id == channel_id)
      (fun ch =>
        { ch with
            title := channel_data.title.getD ch.title
            subscriber_count :=
              channel_data.subscriber_count.getD ch.subscriber_count
            view_count := channel_data.view_count.getD ch.view_count
            video_count := channel_data.video_count.getD ch.video_count })
      channels
  else
    channels ++
      [{ channel_id := channel_id
         title := channel_data.title.getD ""
         subscriber_count := channel_data.subscriber_count.getD 0
         view_count := channel_data.view_count.getD 0
         video_count := channel_data.video_count.getD 0 }]

/-- `DailySyncService._record_sync_metrics` (daily_sync_service.py:269-290).
`writeRaises = true` injects a storage failure; the `except` clause logs it
and swallows it, so the session is returned unchanged and nothing
propagates. -/
def record_sync_metrics (writeRaises : Bool) (db : DB) (sync_id : Nat)
    (channel_id : String) (duration : ℚ) (api_calls videos_processed : Nat) :
    DB :=
  if writeRaises then db
  else
    { db with
        metrics := db.metrics ++
          [{ sync_id := sync_id
             channel_id := channel_id
             total_duration_seconds := duration
             api_calls_made := api_calls
             videos_processed := videos_processed
             data_transferred_bytes := 0
             videos_updated := videos_processed
             videos_added := 0
             videos_removed := 0
             api_errors := 0
             rate_limit_hits := 0
             timeout_errors := 0 }] }

/-- The field assignments of the success branch
(daily_sync_service.py:160-165). -/
def completeUpd (now duration : ℚ) (videos_synced api_calls_made : Nat)
    (r : SyncRecord) : SyncRecord :=
  { r with
      sync_status := "completed"
      completed_at := some now
      videos_synced := videos_synced
      api_calls_made := api_calls_made
      sync_duration_seconds := some duration }

/-- The field assignments of the failure branch
(daily_sync_service.py:180-185; `videos_synced` is not assigned there). -/
def failUpd (msg : String) (now duration : ℚ) (api_calls_made : Nat)
    (r : SyncRecord) : SyncRecord :=
  { r with
      sync_status := "failed"
      completed_at := some now
      error_message := some msg
      api_calls_made := api_calls_made
      sync_duration_seconds := some duration }

/-- The success-branch terminal update (daily_sync_service.py:156-166):
look the record up by `sync_id` and, if found, mark it `completed`. -/
def setCompleted (db : DB) (sync_id : Nat) (now duration : ℚ)
    (videos_synced api_calls_made : Nat) : DB :=
  { db with
      syncs := updateFirst (fun r => r.sync_id == sync_id)
        (completeUpd now duration videos_synced api_calls_made) db.syncs }

/-- The failure-branch terminal update (daily_sync_service.py:176-186):
look the record up by `sync_id` and, if found, mark it `failed` with the
captured message. -/
def setFailed (db : DB) (sync_id : Nat) (msg : String) (now duration : ℚ)
    (api_calls_made : Nat) : DB :=
  { db with
      syncs := updateFirst (fun r => r.sync_id == sync_id)
        (failUpd msg now duration api_calls_made) db.syncs }

/-- The behaviour of the external collaborators and the clock during one
run of `_perform_sync`: the outcome of
`historical_metrics_service.collect_daily_metrics`, of
`youtube_service.get_all_channel_videos`, of
`youtube_service.get_channel_info`, which per-video upserts raise, whether
the channel upsert raises, whether the `SyncMetrics` insert raises, and the
wall clock at the terminal transition / the measured duration. -/
structure SyncEnv where
  collectMetrics : Except String Unit
  fetchAllVideos : Except String (List VideoData)
  channelInfo : Except String ChannelData
  upsertRaises : String → Bool
  channelUpdateRaises : Bool
  metricsWriteRaises : Bool
  finishTime : ℚ
  duration : ℚ

/-- `DailySyncService._perform_sync` (daily_sync_service.py:101-191).  The
`try` body runs steps in order; the first raising step jumps to the
`except` branch, which marks the record `failed` with the accumulated
`api_calls_made` (10 is added only after the metrics collection returns;
`len(videos_data) // 50 + 2` only after the video fetch returns) and the
`videos_synced` local still 0; either way the `finally` branch appends the
`SyncMetrics` row.  Nothing this function does can raise to its caller. -/
def perform_sync (env : SyncEnv) (db : DB) (sync_id : Nat)
    (channel_id : String) : DB :=
  match env.collectMetrics with
  | Except.error msg =>
    record_sync_metrics env.metricsWriteRaises
      (setFailed db sync_id msg env.finishTime env.duration 0)
      sync_id channel_id env.duration 0 0
  | Except.ok _ =>
    match env.fetchAllVideos with
    | Except.error msg =>
      record_sync_metrics env.metricsWriteRaises
        (setFailed db sync_id msg env.finishTime env.duration 10)
        sync_id channel_id env.duration 10 0
    | Except.ok videos_data =>
      let api_calls_made := 10 + (videos_data.length / 50 + 2)
      match env.channelInfo with
      | Except.error msg =>
        record_sync_metrics env.metricsWriteRaises
          (setFailed db sync_id msg env.finishTime env.duration api_calls_made)
          sync_id channel_id env.duration api_calls_made 0
      | Except.ok channel_data =>
        let snapshot : DataSnapshot :=
          { sync_id := sync_id
            channel_id := channel_id
            channel_title := channel_data.snippetTitle
            subscriber_count := channel_data.statSubscriberCount
            view_count := channel_data.statViewCount
            video_count := videos_data.length
            sync_timestamp := env.finishTime }
        let db1 := { db with snapshots := db.snapshots ++ [snapshot] }
        let vres :=
          update_video_records env.upsertRaises videos_data channel_id
            db1.videos
        let db2 := { db1 with videos := vres.2 }
        let db3 :=
          { db2 with
              channels :=
                update_channel_record env.channelUpdateRaises channel_data
                  channel_id db2.channels }
        let db4 :=
          setCompleted db3 sync_id env.finishTime env.duration vres.1
            api_calls_made
        record_sync_metrics env.metricsWriteRaises db4 sync_id channel_id
          env.duration api_calls_made vres.1

/-- The default configuration the lazy-create paths insert
(sync.py:176-184; unset columns take the model defaults from
`app/models/daily_sync.py`). -/
def defaultConfig (channel_id : String) : SyncConfiguration :=
  { channel_id := channel_id
    sync_enabled := true
    sync_frequency_hours := 24
    max_retries := 3
    retry_delay_minutes := 30
    daily_quota_limit := 10000
    quota_reset_hour := 0
    keep_snapshots_days := 90
    notify_on_failure := true }

/-- `GET /sync/configuration` (`get_sync_configuration`, sync.py:165-193):
returns the stored configuration, creating and committing the default one
first when none exists. -/
def get_sync_configuration (db : DB) (channel_id : String) :
    SyncConfiguration × DB :=
  match findConfig db channel_id with
  | some config => (config, db)
  | none =>
    let config := defaultConfig channel_id
    (config, { db with configs := db.configs ++ [config] })

/-- `PUT /sync/configuration` (`update_sync_configuration`,
sync.py:196-231): upsert, then overwrite `sync_enabled`,
`sync_frequency_hours` and `max_retries`. -/
def update_sync_configuration (db : DB) (channel_id : String)
    (sync_enabled : Bool) (sync_frequency_hours max_retries : Nat) : DB :=
  let setFields : SyncConfiguration → SyncConfiguration := fun g =>
    { g with
        sync_enabled := sync_enabled
        sync_frequency_hours := sync_frequency_hours
        max_retries := max_retries }
  match findConfig db channel_id with
  | some _ =>
    { db with
        configs :=
          updateFirst (fun g => g.channel_id == channel_id) setFields
            db.configs }
  | none =>
    { db with
        configs := db.configs ++ [setFields (defaultConfig channel_id)] }

/-- The body of the `GET /sync/data-freshness` response
(`get_data_freshness`, sync.py:234-286) that the claims are about.  The
endpoint reports the age rounded to two decimals; the decision logic uses
the unrounded value, which is what we keep. -/
structure FreshnessInfo where
  data_age_hours : Option ℚ
  is_stale : Bool
  recommendation : String
deriving Repr, DecidableEq

/-- `GET /sync/data-freshness` (sync.py:234-286).  `none` is the HTTP-500
path: a latest completed record whose `completed_at` is `NULL` makes the
age subtraction raise, caught by the handler's `except`. -/
def get_data_freshness (db : DB) (now : ℚ) (channel_id : String) :
    Option FreshnessInfo :=
  match latestCompleted db channel_id with
  | none =>
    some
      { data_age_hours := none
        is_stale := true
        recommendation := "No sync found - initial sync required" }
  | some last_sync =>
    match last_sync.completed_at with
    | none => none
    | some t =>
      let data_age_hours := now - t
      let is_stale := decide (data_age_hours > 25)
      let recommendation :=
        if is_stale then "Data is stale - sync recommended"
        else if data_age_hours > 20 then
          "Data will be stale soon - sync will run automatically"
        else "Data is fresh"
      some
        { data_age_hours := some data_age_hours
          is_stale := is_stale
          recommendation := recommendation }

/-- The `SyncMetrics` row `_record_sync_metrics` inserts
(daily_sync_service.py:274-284): the error-tracking counters are left at
their column defaults (0). -/
def metricsRow (sync_id : Nat) (channel_id : String) (duration : ℚ)
    (api_calls videos_processed : Nat) : SyncMetrics :=
  { sync_id := sync_id
    channel_id := channel_id
    total_duration_seconds := duration
    api_calls_made := api_calls
    videos_processed := videos_processed
    data_transferred_bytes := 0
    videos_updated := videos_processed
    videos_added := 0
    videos_removed := 0
    api_errors := 0
    rate_limit_hits := 0
    timeout_errors := 0 }

/-- How many records of the store are `running` for channel `c` (the same
predicate as the query behind `findRunning`). -/
def countRunning (db : DB) (c : String) : Nat :=
  (db.syncs.filter
    (fun r => r.channel_id == c && r.sync_status == "running")).length

/-- How many `SyncMetrics` rows exist for `sid`. -/
def countMetrics (db : DB) (sid : Nat) : Nat :=
  (db.metrics.filter (fun m => m.sync_id == sid)).length

/-- The snapshot rows belonging to `sid`. -/
def snapshotsFor (db : DB) (sid : Nat) : List DataSnapshot :=
  db.snapshots.filter (fun s => s.sync_id == sid)

/-- The single-flight invariant of §8 of the spec: at most one `running`
record per channel. -/
def atMostOneRunning (db : DB) : Prop :=
  ∀ c, countRunning db c ≤ 1

/-- The terminal statuses of the `SyncRecord` state machine. -/
def isTerminal (s : String) : Bool :=
  s == "completed" || s == "failed" || s == "cancelled"

/-- The state-mutating operations of the engine, for stating store-level
invariants over traces. -/
inductive Op where
  | start (sync_id : Nat) (channel_id : String) (force : Bool) (now : ℚ)
  | perform (env : SyncEnv) (sync_id : Nat) (channel_id : String)
  | getConfig (channel_id : String)
  | updateConfig (channel_id : String) (sync_enabled : Bool)
      (sync_frequency_hours max_retries : Nat)

/-- The store effect of one operation. -/
def applyOp (op : Op) (db : DB) : DB :=
  match op with
  | Op.start sid c force now => (start_sync db now sid c force).2
  | Op.perform env sid c => perform_sync env db sid c
  | Op.getConfig c => (get_sync_configuration db c).2
  | Op.updateConfig c en fr mr => update_sync_configuration db c en fr mr

/-- The store effect of a sequence of operations. -/
def applyOps (ops : List Op) (db : DB) : DB :=
  ops.foldl (fun d op => applyOp op d) db

/-- Whether the record with this `sync_id` is currently `running`. -/
def isRunningAt (db : DB) (sid : Nat) : Bool :=
  match findSync db sid with
  | some r => r.sync_status == "running"
  | none => false

/-- The per-step side condition of a well-formed trace (see `wfOps`). -/
def opPrecondition (db : DB) : Op → Bool
  | Op.perform _ sid _ => isRunningAt db sid
  | _ => true

/-- Well-formedness of an engine trace: a `perform` step only runs against
a record that is `running` when it fires.  This encodes the ownership
discipline of the code — the pipeline task for a `sync_id` is spawned
exactly once, by the `start_sync` call that just created that record in
`running` state, and nothing else ever targets that `sync_id`. -/
def wfOps : DB → List Op → Bool
  | _, [] => true
  | db, op :: ops => opPrecondition db op && wfOps (applyOp op db) ops

/-- Whether an operation avoids the `force` override. -/
def noForceOp : Op → Bool
  | Op.start _ _ force _ => !force
  | _ => true

/-! ### List-level lemmas about the query embeddings -/

theorem find?_append_of_some {α} {p : α → Bool} {l₁ : List α} (l₂ : List α)
    {a : α} (h : l₁.find? p = some a) : (l₁ ++ l₂).find? p = some a := by
  induction l₁ with
  | nil => simp [List.find?] at h
  | cons x xs ih =>
    rw [List.cons_append]
    rcases hx : p x with _ | _
    · rw [List.find?_cons_of_neg _ (by simp [hx])]
      rw [List.find?_cons_of_neg _ (by simp [hx])] at h
      exact ih h
    · rw [List.find?_cons_of_pos _ hx]
      rw [List.find?_cons_of_pos _ hx] at h
      exact h

theorem find?_append_of_none {α} {p : α → Bool} {l₁ : List α} (l₂ : List α)
    (h : l₁.find? p = none) : (l₁ ++ l₂).find? p = l₂.find? p := by
  induction l₁ with
  | nil => simp
  | cons x xs ih =>
    rw [List.find?_cons] at h
    rcases hx : p x with _ | _
    · rw [hx] at h
      rw [List.cons_append, List.find?_cons_of_neg _ (by simp [hx])]
      exact ih h
    · rw [hx] at h; exact absurd h (by simp)

/-- Mutating the first `p`-match through `f` is what a subsequent
`find? p` sees, provided `f` does not change `p`-membership. -/
theorem find?_updateFirst_self {α} {p : α → Bool} {f : α → α}
    (hpf : ∀ x, p (f x) = p x) (l : List α) :
    (updateFirst p f l).find? p = (l.find? p).map f := by
  induction l with
  | nil => simp [updateFirst]
  | cons x xs ih =>
    rcases hx : p x with _ | _
    · rw [updateFirst, if_neg (by simp [hx]),
        List.find?_cons_of_neg _ (by simp [hx]),
        List.find?_cons_of_neg _ (by simp [hx])]
      exact ih
    · rw [updateFirst, if_pos (by simp [hx]),
        List.find?_cons_of_pos _ (by rw [hpf, hx]),
        List.find?_cons_of_pos _ hx]
      rfl

/-- Mutating the first `p`-match is invisible to a `find? q` for a
predicate `q` that no `p`-match satisfies and that `f` leaves alone. -/
theorem find?_updateFirst_other {α} {p q : α → Bool} {f : α → α}
    (hq : ∀ x, q (f x) = q x) (hpq : ∀ x, p x = true → q x = false)
    (l : List α) : (updateFirst p f l).find? q = l.find? q := by
  induction l with
  | nil => simp [updateFirst]
  | cons x xs ih =>
    rcases hx : p x with _ | _
    · rw [updateFirst, if_neg (by simp [hx]), List.find?_cons, List.find?_cons]
      rcases hqx : q x with _ | _
      · exact ih
      · rfl
    · have hqx : q x = false := hpq x hx
      rw [updateFirst, if_pos (by simp [hx]),
        List.find?_cons_of_neg _ (by rw [hq, hqx]; simp),
        List.find?_cons_of_neg _ (by rw [hqx]; simp)]

/-- Mutating one element through an `f` whose results never satisfy `q`
cannot increase the number of `q`-matches. -/
theorem length_filter_updateFirst_le {α} {p q : α → Bool} {f : α → α}
    (hf : ∀ x, q (f x) = false) (l : List α) :
    ((updateFirst p f l).filter q).length ≤ (l.filter q).length := by
  induction l with
  | nil => simp [updateFirst]
  | cons x xs ih =>
    rcases hx : p x with _ | _
    · rw [updateFirst, if_neg (by simp [hx]), List.filter_cons,
        List.filter_cons]
      rcases hqx : q x with _ | _
      · simpa using ih
      · simpa using Nat.succ_le_succ ih
    · rw [updateFirst, if_pos (by simp [hx]), List.filter_cons,
        List.filter_cons, hf]
      rcases hqx : q x with _ | _
      · simp
      · simp [Nat.le_succ_of_le]

/-! ### Projection lemmas for the store operations -/

theorem record_sync_metrics_syncs (w : Bool) (db : DB) (sid : Nat)
    (c : String) (d : ℚ) (a v : Nat) :
    (record_sync_metrics w db sid c d a v).syncs = db.syncs := by
  unfold record_sync_metrics; split <;> rfl

theorem record_sync_metrics_snapshots (w : Bool) (db : DB) (sid : Nat)
    (c : String) (d : ℚ) (a v : Nat) :
    (record_sync_metrics w db sid c d a v).snapshots = db.snapshots := by
  unfold record_sync_metrics; split <;> rfl

theorem record_sync_metrics_metrics (w : Bool) (db : DB) (sid : Nat)
    (c : String) (d : ℚ) (a v : Nat) :
    (record_sync_metrics w db sid c d a v).metrics =
      db.metrics ++ (if w then [] else [metricsRow sid c d a v]) := by
  unfold record_sync_metrics metricsRow; split <;> simp

theorem findSync_eq_of_syncs_eq {db₁ db₂ : DB} (h : db₁.syncs = db₂.syncs)
    (sid : Nat) : findSync db₁ sid = findSync db₂ sid := by
  simp [findSync, h]

theorem countRunning_eq_of_syncs_eq {db₁ db₂ : DB}
    (h : db₁.syncs = db₂.syncs) (c : String) :
    countRunning db₁ c = countRunning db₂ c := by
  simp [countRunning, h]

/-- Whatever the environment does, one `_perform_sync` run touches the
records table exactly by rewriting the first record with its `sync_id`
to a terminal (`completed` or `failed`) version with the same `sync_id`,
appends at most one snapshot, and appends the `SyncMetrics` row unless
that write raises. -/
theorem perform_sync_shape (env : SyncEnv) (db : DB) (sid : Nat)
    (c : String) :
    ∃ (f : SyncRecord → SyncRecord) (snaps : List DataSnapshot) (d : ℚ)
      (a v : Nat),
      (∀ x, (f x).sync_id = x.sync_id) ∧
      (∀ x, (f x).sync_status = "completed" ∨ (f x).sync_status = "failed") ∧
      (perform_sync env db sid c).syncs =
        updateFirst (fun r => r.sync_id == sid) f db.syncs ∧
      (perform_sync env db sid c).snapshots = db.snapshots ++ snaps ∧
      (perform_sync env db sid c).metrics =
        db.metrics ++
          (if env.metricsWriteRaises then [] else [metricsRow sid c d a v]) := by
  unfold perform_sync
  rcases h₁ : env.collectMetrics with msg | u
  · simp only [h₁]
    refine ⟨failUpd msg env.finishTime env.duration 0, [], env.duration, 0,
      0, fun x => rfl, fun x => Or.inr rfl, ?_, ?_, ?_⟩
    · rw [record_sync_metrics_syncs]; rfl
    · rw [record_sync_metrics_snapshots]; simp [setFailed]
    · rw [record_sync_metrics_metrics]; rfl
  · rcases h₂ : env.fetchAllVideos with msg | videos_data
    · simp only [h₁, h₂]
      refine ⟨failUpd msg env.finishTime env.duration 10, [], env.duration,
        10, 0, fun x => rfl, fun x => Or.inr rfl, ?_, ?_, ?_⟩
      · rw [record_sync_metrics_syncs]; rfl
      · rw [record_sync_metrics_snapshots]; simp [setFailed]
      · rw [record_sync_metrics_metrics]; rfl
    · rcases h₃ : env.channelInfo with msg | channel_data
      · simp only [h₁, h₂, h₃]
        refine ⟨failUpd msg env.finishTime env.duration
            (10 + (videos_data.length / 50 + 2)), [], env.duration,
          10 + (videos_data.length / 50 + 2), 0,
          fun x => rfl, fun x => Or.inr rfl, ?_, ?_, ?_⟩
        · rw [record_sync_metrics_syncs]; rfl
        · rw [record_sync_metrics_snapshots]; simp [setFailed]
        · rw [record_sync_metrics_metrics]; rfl
      · simp only [h₁, h₂, h₃]
        refine ⟨completeUpd env.finishTime env.duration
            (update_video_records env.upsertRaises videos_data c db.videos).1
            (10 + (videos_data.length / 50 + 2)),
          [{ sync_id := sid
             channel_id := c
             channel_title := channel_data.snippetTitle
             subscriber_count := channel_data.statSubscriberCount
             view_count := channel_data.statViewCount
             video_count := videos_data.length
             sync_timestamp := env.finishTime }],
          env.duration, 10 + (videos_data.length / 50 + 2),
          (update_video_records env.upsertRaises videos_data c db.videos).1,
          fun x => rfl, fun x => Or.inl rfl, ?_, ?_, ?_⟩
        · rw [record_sync_metrics_syncs]; rfl
        · rw [record_sync_metrics_snapshots]; simp [setCompleted]
        · rw [record_sync_metrics_metrics]; rfl

theorem get_sync_configuration_snd_syncs (db : DB) (c : String) :
    (get_sync_configuration db c).2.syncs = db.syncs := by
  unfold get_sync_configuration
  rcases h : findConfig db c with _ | g <;> simp [h]

theorem update_sync_configuration_syncs (db : DB) (c : String) (en : Bool)
    (fr mr : Nat) :
    (update_sync_configuration db c en fr mr).syncs = db.syncs := by
  unfold update_sync_configuration
  rcases h : findConfig db c with _ | g <;> simp [h]

/-- The records table after a pipeline run does not depend on whether the
`SyncMetrics` insert raised. -/
theorem perform_sync_syncs_metricsWrite (env : SyncEnv) (w : Bool) (db : DB)
    (sid : Nat) (c : String) :
    (perform_sync { env with metricsWriteRaises := w } db sid c).syncs =
      (perform_sync env db sid c).syncs := by
  unfold perform_sync
  rcases h₁ : env.collectMetrics with msg | u
  · simp only [h₁, record_sync_metrics_syncs]
  · rcases h₂ : env.fetchAllVideos with msg | videos_data
    · simp only [h₁, h₂, record_sync_metrics_syncs]
    · rcases h₃ : env.channelInfo with msg | channel_data
      · simp only [h₁, h₂, h₃, record_sync_metrics_syncs]
      · simp only [h₁, h₂, h₃, record_sync_metrics_syncs]

/-! ### Concrete fixtures for witnesses and counterexamples -/

/-- An empty store. -/
def emptyDB : DB := ⟨[], [], [], [], [], []⟩

/-- A freshly created `running` record, as `start_sync` writes it at
`now = 0`. -/
def recRunning (sid : Nat) (c : String) : SyncRecord :=
  ⟨sid, c, "running", 0, none, none, 0, 0, none⟩

/-- A terminal `completed` record whose sync finished at time `t`. -/
def recCompleted (sid : Nat) (c : String) (t : ℚ) : SyncRecord :=
  ⟨sid, c, "completed", 0, some t, none, 5, 3, some 1⟩

/-- A store holding exactly one `running` record for channel `C1`. -/
def dbOneRunning : DB := ⟨[recRunning 1 "C1"], [], [], [], [], []⟩

/-- A store holding one completed record for `C2` (finished at time 0) and
the default (enabled, 24-hour) configuration for `C2`. -/
def dbOneCompleted : DB :=
  ⟨[recCompleted 2 "C2" 0], [], [defaultConfig "C2"], [], [], []⟩

/-! ### The claims -/

/-- **C4**: for every channel whose configuration exists and is enabled,
`check_sync_needed` returns `true` when no completed record exists for the
channel, and otherwise returns `true` iff
`now - completed_at ≥ sync_frequency_hours` for the most recent completed
record. -/
theorem check_sync_needed_freshness (db : DB) (now : ℚ) (c : String)
    (cfg : SyncConfiguration) (hcfg : findConfig db c = some cfg)
    (hen : cfg.sync_enabled = true) :
    (latestCompleted db c = none → check_sync_needed false db now c = true) ∧
    (∀ r t, latestCompleted db c = some r → r.completed_at = some t →
      (check_sync_needed false db now c = true ↔
        (cfg.sync_frequency_hours : ℚ) ≤ now - t)) := by
  constructor
  · intro hnone
    simp [check_sync_needed, hcfg, hen, hnone]
  · intro r t hr ht
    simp [check_sync_needed, hcfg, hen, hr, ht, ge_iff_le]

/-- Scenario D at the concrete store: frequency 24, last completed sync 23
hours ago gives `false`; 25 hours ago gives `true`. -/
theorem check_sync_needed_freshness_witness :
    check_sync_needed false dbOneCompleted 23 "C2" = false ∧
    check_sync_needed false dbOneCompleted 25 "C2" = true := by
  have h23 := (check_sync_needed_freshness dbOneCompleted 23 "C2"
    (defaultConfig "C2") (by decide) (by decide)).2 (recCompleted 2 "C2" 0) 0
    (by decide) (by decide)
  have h25 := (check_sync_needed_freshness dbOneCompleted 25 "C2"
    (defaultConfig "C2") (by decide) (by decide)).2 (recCompleted 2 "C2" 0) 0
    (by decide) (by decide)
  constructor
  · rcases hb : check_sync_needed false dbOneCompleted 23 "C2" with _ | _
    · rfl
    · exact absurd (h23.mp hb) (by norm_num [defaultConfig])
  · exact h25.mpr (by norm_num [defaultConfig])

/-- **C10**: `check_sync_needed` never raises (it is a total function into
`Bool` that performs no store write): with no configuration row it returns
`false` without lazily creating one, and an exception anywhere during the
check (`exn = true`) also yields `false`. -/
theorem check_sync_needed_never_raises (exn : Bool) (db : DB) (now : ℚ)
    (c : String) :
    (findConfig db c = none → check_sync_needed exn db now c = false) ∧
    check_sync_needed true db now c = false := by
  constructor
  · intro h
    cases exn
    · simp [check_sync_needed, h]
    · simp [check_sync_needed]
  · simp [check_sync_needed]

/-- `check_sync_needed` at a channel with no configuration, and with an
injected exception. -/
theorem check_sync_needed_never_raises_witness :
    check_sync_needed false emptyDB 0 "C9" = false ∧
    check_sync_needed true dbOneCompleted 100 "C2" = false :=
  ⟨(check_sync_needed_never_raises false emptyDB 0 "C9").1 (by decide),
   (check_sync_needed_never_raises true dbOneCompleted 100 "C2").2⟩

/-- **C5**: with a `running` record present for the channel, `start_sync`
with `force = true` succeeds (returns the new `sync_id`) and leaves a
second `running` record for the same channel in the store. -/
theorem force_start_creates_second_running (db : DB) (now : ℚ) (sid : Nat)
    (c : String) (h : (findRunning db c).isSome = true) :
    (start_sync db now sid c true).1 = Except.ok sid ∧
    2 ≤ countRunning (start_sync db now sid c true).2 c := by
  constructor
  · unfold start_sync
    rw [if_neg (by simp)]
  · unfold start_sync
    rw [if_neg (by simp)]
    obtain ⟨r, hr⟩ := Option.isSome_iff_exists.mp h
    have hp := List.find?_some hr
    have hmem := List.mem_of_find?_eq_some hr
    have hone : 0 < countRunning db c := by
      unfold countRunning
      exact List.length_pos_of_mem (List.mem_filter.mpr ⟨hmem, hp⟩)
    unfold countRunning at hone ⊢
    rw [List.filter_append, List.length_append]
    have hsingle : (List.filter
        (fun r => r.channel_id == c && r.sync_status == "running")
        [({ sync_id := sid, channel_id := c, sync_status := "running",
            started_at := now, completed_at := none, error_message := none,
            videos_synced := 0, api_calls_made := 0,
            sync_duration_seconds := none } : SyncRecord)]).length = 1 := by
      simp
    rw [hsingle]
    omega

/-- Scenario B's third call at the concrete store: `force = true` on a
channel with a `running` record succeeds and yields two `running`
records. -/
theorem force_start_creates_second_running_witness :
    (start_sync dbOneRunning 0 7 "C1" true).1 = Except.ok 7 ∧
    2 ≤ countRunning (start_sync dbOneRunning 0 7 "C1" true).2 "C1" :=
  force_start_creates_second_running dbOneRunning 0 7 "C1" (by decide)

/-- **C8**: reading the configuration lazily creates the default-enabled
24-hour configuration when none exists, and a second read with no
intervening update returns the same configuration and leaves the store
untouched. -/
theorem config_read_lazy_create_idempotent (db : DB) (c : String) :
    (findConfig db c = none →
      get_sync_configuration db c =
        (defaultConfig c,
          { db with configs := db.configs ++ [defaultConfig c] })) ∧
    get_sync_configuration (get_sync_configuration db c).2 c =
      ((get_sync_configuration db c).1, (get_sync_configuration db c).2) := by
  rcases h : findConfig db c with _ | g
  · refine ⟨fun _ => by simp [get_sync_configuration, h], ?_⟩
    have h2 : findConfig
        { db with configs := db.configs ++ [defaultConfig c] } c =
        some (defaultConfig c) := by
      unfold findConfig at h ⊢
      rw [find?_append_of_none _ h]
      simp [defaultConfig]
    simp [get_sync_configuration, h, h2]
  · exact ⟨fun hn => by simp [h] at hn, by simp [get_sync_configuration, h]⟩

/-- Lazy creation and idempotent re-read at the empty store. -/
theorem config_read_lazy_create_idempotent_witness :
    get_sync_configuration emptyDB "C3" =
      (defaultConfig "C3",
        { emptyDB with configs := emptyDB.configs ++ [defaultConfig "C3"] }) ∧
    get_sync_configuration (get_sync_configuration emptyDB "C3").2 "C3" =
      ((get_sync_configuration emptyDB "C3").1,
        (get_sync_configuration emptyDB "C3").2) :=
  ⟨(config_read_lazy_create_idempotent emptyDB "C3").1 (by decide),
   (config_read_lazy_create_idempotent emptyDB "C3").2⟩

/-- **C3**: if `collect_daily_metrics` succeeded but the
`get_all_channel_videos` fetch raises, the attempt's record transitions to
`failed` carrying the captured (non-empty) exception message, and no
snapshot row exists for that `sync_id`. -/
theorem fetch_failure_fails_without_snapshot (env : SyncEnv) (db : DB)
    (sid : Nat) (c : String) (msg : String) (r : SyncRecord) (u : Unit)
    (h₁ : env.collectMetrics = Except.ok u)
    (h₂ : env.fetchAllVideos = Except.error msg)
    (hmsg : msg ≠ "")
    (hr : findSync db sid = some r)
    (hsnap : snapshotsFor db sid = []) :
    findSync (perform_sync env db sid c) sid =
      some (failUpd msg env.finishTime env.duration 10 r) ∧
    (failUpd msg env.finishTime env.duration 10 r).sync_status = "failed" ∧
    (failUpd msg env.finishTime env.duration 10 r).error_message = some msg ∧
    msg ≠ "" ∧
    snapshotsFor (perform_sync env db sid c) sid = [] := by
  have hpsy : (perform_sync env db sid c).syncs =
      updateFirst (fun x => x.sync_id == sid)
        (failUpd msg env.finishTime env.duration 10) db.syncs := by
    unfold perform_sync
    simp only [h₁, h₂, record_sync_metrics_syncs]
    rfl
  have hpsn : (perform_sync env db sid c).snapshots = db.snapshots := by
    unfold perform_sync
    simp only [h₁, h₂, record_sync_metrics_snapshots]
    rfl
  refine ⟨?_, rfl, rfl, hmsg, ?_⟩
  · unfold findSync at hr ⊢
    rw [hpsy, find?_updateFirst_self (p := fun x => x.sync_id == sid)
      (f := failUpd msg env.finishTime env.duration 10) (fun x => rfl)
      db.syncs, hr]
    rfl
  · unfold snapshotsFor at hsnap ⊢
    rw [hpsn]
    exact hsnap

/-- The environment of Scenario C: metrics collection succeeds, the video
fetch raises `"API unreachable"`. -/
def envFetchFail : SyncEnv :=
  { collectMetrics := Except.ok ()
    fetchAllVideos := Except.error "API unreachable"
    channelInfo := Except.ok ⟨"", 0, 0, none, none, none, none⟩
    upsertRaises := fun _ => false
    channelUpdateRaises := false
    metricsWriteRaises := false
    finishTime := 3
    duration := 2 }

/-- Scenario C at the concrete store. -/
theorem fetch_failure_fails_without_snapshot_witness :
    findSync (perform_sync envFetchFail dbOneRunning 1 "C1") 1 =
      some (failUpd "API unreachable" 3 2 10 (recRunning 1 "C1")) ∧
    (failUpd "API unreachable" 3 2 10 (recRunning 1 "C1")).sync_status =
      "failed" ∧
    (failUpd "API unreachable" 3 2 10 (recRunning 1 "C1")).error_message =
      some "API unreachable" ∧
    "API unreachable" ≠ "" ∧
    snapshotsFor (perform_sync envFetchFail dbOneRunning 1 "C1") 1 = [] :=
  fetch_failure_fails_without_snapshot envFetchFail dbOneRunning 1 "C1"
    "API unreachable" (recRunning 1 "C1") () rfl rfl (by decide) (by decide)
    (by decide)

/-- **C6**: whatever the pipeline does, exactly one `SyncMetrics` row for
the attempt's `sync_id` is present afterwards when the metrics insert
succeeds (`0` when that insert itself raises), the attempt's record is in a
terminal state in that same final store, and a raising metrics insert
changes nothing about the record — the failure is swallowed, never
propagated (`perform_sync` is total). -/
theorem metrics_once_after_terminal (env : SyncEnv) (db : DB) (sid : Nat)
    (c : String) (r : SyncRecord)
    (hr : findSync db sid = some r)
    (hm : countMetrics db sid = 0) :
    countMetrics (perform_sync env db sid c) sid =
      (if env.metricsWriteRaises then 0 else 1) ∧
    (∃ r', findSync (perform_sync env db sid c) sid = some r' ∧
      (r'.sync_status = "completed" ∨ r'.sync_status = "failed")) ∧
    findSync (perform_sync env db sid c) sid =
      findSync (perform_sync { env with metricsWriteRaises := false } db sid c)
        sid := by
  obtain ⟨f, snaps, d, a, v, hfid, hfst, hsy, hsn, hme⟩ :=
    perform_sync_shape env db sid c
  refine ⟨?_, ?_, ?_⟩
  · unfold countMetrics at hm ⊢
    rw [hme, List.filter_append, List.length_append, hm]
    cases hw : env.metricsWriteRaises
    · simp [metricsRow]
    · simp
  · refine ⟨f r, ?_, hfst r⟩
    unfold findSync at hr ⊢
    rw [hsy, find?_updateFirst_self (f := f) (fun x => by
      show ((f x).sync_id == sid) = (x.sync_id == sid)
      rw [hfid]) db.syncs, hr]
    rfl
  · exact (findSync_eq_of_syncs_eq
      (perform_sync_syncs_metricsWrite env false db sid c) sid).symm

/-- The metrics bookkeeping at the concrete Scenario C run. -/
theorem metrics_once_after_terminal_witness :
    countMetrics (perform_sync envFetchFail dbOneRunning 1 "C1") 1 =
      (if envFetchFail.metricsWriteRaises then 0 else 1) ∧
    (∃ r', findSync (perform_sync envFetchFail dbOneRunning 1 "C1") 1 =
        some r' ∧
      (r'.sync_status = "completed" ∨ r'.sync_status = "failed")) ∧
    findSync (perform_sync envFetchFail dbOneRunning 1 "C1") 1 =
      findSync (perform_sync
        { envFetchFail with metricsWriteRaises := false } dbOneRunning 1 "C1")
        1 :=
  metrics_once_after_terminal envFetchFail dbOneRunning 1 "C1"
    (recRunning 1 "C1") (by decide) (by decide)

/-- Any single engine operation that does not use `force` preserves the
at-most-one-running-record-per-channel invariant. -/
theorem applyOp_preserves_single_flight (db : DB) (h : atMostOneRunning db)
    (op : Op) (hop : noForceOp op = true) :
    atMostOneRunning (applyOp op db) := by
  cases op with
  | start sid c force now =>
    have hforce : force = false := by
      cases force
      · rfl
      · simp [noForceOp] at hop
    subst hforce
    simp only [applyOp]
    unfold start_sync
    rcases hrun : (findRunning db c).isSome with _ | _
    · rw [if_neg (by simp [hrun])]
      dsimp only
      intro c'
      have hzero : countRunning db c = 0 := by
        unfold countRunning
        have hnone : findRunning db c = none := by
          rcases hx : findRunning db c with _ | x
          · rfl
          · rw [hx] at hrun; simp at hrun
        unfold findRunning at hnone
        rw [List.find?_eq_none] at hnone
        rw [List.length_eq_zero, List.filter_eq_nil_iff]
        intro a ha
        exact hnone a ha
      have hc' := h c'
      unfold countRunning at hc' hzero ⊢
      dsimp only
      rw [List.filter_append, List.length_append]
      by_cases hc : c = c'
      · subst hc
        simp [hzero]
      · have hbeq : (c == c') = false := beq_eq_false_iff_ne.mpr hc
        simpa [hbeq] using hc'
    · rw [if_pos (by simp [hrun])]
      exact h
  | perform env sid c =>
    obtain ⟨f, snaps, d, a, v, hfid, hfst, hsy, hsn, hme⟩ :=
      perform_sync_shape env db sid c
    intro c'
    simp only [applyOp]
    unfold countRunning
    rw [hsy]
    refine le_trans (length_filter_updateFirst_le (fun x => ?_) db.syncs)
      (h c')
    rcases hfst x with hst | hst <;>
      simp [hst]
  | getConfig c =>
    intro c'
    simp only [applyOp]
    rw [countRunning_eq_of_syncs_eq (get_sync_configuration_snd_syncs db c) c']
    exact h c'
  | updateConfig c en fr mr =>
    intro c'
    simp only [applyOp]
    rw [countRunning_eq_of_syncs_eq
      (update_sync_configuration_syncs db c en fr mr) c']
    exact h c'

/-- **C1**: a `start_sync` with `force = false` while a `running` record
exists for the channel raises the concurrency-conflict `ValueError` and
leaves the store unchanged (no new record); consequently any trace of
engine operations that never passes `force` preserves the single-flight
invariant: the store never holds two simultaneously-`running` records for
one channel. -/
theorem single_flight_guard :
    (∀ db now sid c, (findRunning db c).isSome = true →
      start_sync db now sid c false =
        (Except.error "Sync already running for this channel", db)) ∧
    (∀ db, atMostOneRunning db → ∀ ops, ops.all noForceOp = true →
      atMostOneRunning (applyOps ops db)) := by
  constructor
  · intro db now sid c h
    unfold start_sync
    rw [if_pos (by simp [h])]
  · intro db h ops hall
    induction ops generalizing db with
    | nil => exact h
    | cons op ops ih =>
      rw [List.all_cons, Bool.and_eq_true] at hall
      exact ih _ (applyOp_preserves_single_flight db h op hall.1) hall.2

/-- Scenario B's rejected second call, and the invariant across a concrete
no-force trace. -/
theorem single_flight_guard_witness :
    start_sync dbOneRunning 0 7 "C1" false =
      (Except.error "Sync already running for this channel", dbOneRunning) ∧
    atMostOneRunning
      (applyOps [Op.start 4 "C1" false 0, Op.getConfig "C1",
        Op.start 5 "C1" false 1] emptyDB) :=
  ⟨single_flight_guard.1 dbOneRunning 0 7 "C1" (by decide),
   single_flight_guard.2 emptyDB
     (fun c => by simp [countRunning, emptyDB])
     [Op.start 4 "C1" false 0, Op.getConfig "C1", Op.start 5 "C1" false 1]
     (by decide)⟩

/-- **C9**: once a record is terminal (`completed`, `failed` or
`cancelled`), no later engine operation changes any of its fields: along
any well-formed trace (each pipeline run fires against a record that is
`running` at that moment, which is how the code spawns exactly one task per
freshly created record) every later read by `sync_id` returns the very
same record value — same status, `completed_at`, `error_message`,
`videos_synced`, `api_calls_made` and duration. -/
theorem terminal_records_immutable (sid : Nat) (r : SyncRecord)
    (ht : isTerminal r.sync_status = true) :
    ∀ ops db, findSync db sid = some r → wfOps db ops = true →
      findSync (applyOps ops db) sid = some r := by
  intro ops
  induction ops with
  | nil => intro db hr _; exact hr
  | cons op ops ih =>
    intro db hr hwf
    rw [wfOps, Bool.and_eq_true] at hwf
    have hstep : findSync (applyOp op db) sid = some r := by
      cases op with
      | start sid' c force now =>
        simp only [applyOp]
        unfold start_sync
        split
        · exact hr
        · unfold findSync at hr ⊢
          exact find?_append_of_some _ hr
      | perform env sid' c =>
        have hrun : isRunningAt db sid' = true := by
          simpa [opPrecondition] using hwf.1
        have hne : sid' ≠ sid := by
          intro he
          subst he
          unfold isRunningAt at hrun
          rw [hr] at hrun
          have hst : r.sync_status = "running" := by simpa using hrun
          rw [hst] at ht
          simp [isTerminal] at ht
        obtain ⟨f, snaps, d, a, v, hfid, hfst, hsy, hsn, hme⟩ :=
          perform_sync_shape env db sid' c
        simp only [applyOp]
        unfold findSync at hr ⊢
        rw [hsy, find?_updateFirst_other
          (q := fun x => x.sync_id == sid)
          (fun x => by
            show ((f x).sync_id == sid) = (x.sync_id == sid)
            rw [hfid])
          (fun x hx => by
            have : x.sync_id = sid' := by simpa using hx
            simp [this, hne])
          db.syncs]
        exact hr
      | getConfig c =>
        simp only [applyOp]
        rw [findSync_eq_of_syncs_eq (get_sync_configuration_snd_syncs db c)
          sid]
        exact hr
      | updateConfig c en fr mr =>
        simp only [applyOp]
        rw [findSync_eq_of_syncs_eq
          (update_sync_configuration_syncs db c en fr mr) sid]
        exact hr
    exact ih (applyOp op db) hstep hwf.2

/-- A store with one `completed` record for `C2`, then a no-perform trace
(two fresh starts and a config round-trip): the terminal record reads back
unchanged. -/
theorem terminal_records_immutable_witness :
    findSync
      (applyOps [Op.start 4 "C2" false 10, Op.getConfig "C2",
        Op.updateConfig "C2" false 12 1, Op.start 5 "C2" true 11]
        dbOneCompleted) 2 = some (recCompleted 2 "C2" 0) :=
  terminal_records_immutable 2 (recCompleted 2 "C2" 0) (by decide)
    [Op.start 4 "C2" false 10, Op.getConfig "C2",
     Op.updateConfig "C2" false 12 1, Op.start 5 "C2" true 11]
    dbOneCompleted (by decide) (by decide)

/-- Scenario E's fetched list: ten videos with ids `v1` … `v10`. -/
def tenVideos : List VideoData :=
  [⟨some "v1", "t1", 1, 0, 0⟩, ⟨some "v2", "t2", 2, 0, 0⟩,
   ⟨some "v3", "t3", 3, 0, 0⟩, ⟨some "v4", "t4", 4, 0, 0⟩,
   ⟨some "v5", "t5", 5, 0, 0⟩, ⟨some "v6", "t6", 6, 0, 0⟩,
   ⟨some "v7", "t7", 7, 0, 0⟩, ⟨some "v8", "t8", 8, 0, 0⟩,
   ⟨some "v9", "t9", 9, 0, 0⟩, ⟨some "v10", "t10", 10, 0, 0⟩]

/-- The channel-info payload of the Scenario E environment. -/
def chanDataTen : ChannelData := ⟨"Chan", 100, 1000, none, none, none, none⟩

/-- The Scenario E environment: every external step succeeds except that
upserting the video with id `v7` raises. -/
def envTen (w : Bool) (t d : ℚ) : SyncEnv :=
  { collectMetrics := Except.ok ()
    fetchAllVideos := Except.ok tenVideos
    channelInfo := Except.ok chanDataTen
    upsertRaises := fun v => v == "v7"
    channelUpdateRaises := w
    metricsWriteRaises := false
    finishTime := t
    duration := d }

/-- The snapshot a Scenario E run writes. -/
def snapTen (sid : Nat) (c : String) (t : ℚ) : DataSnapshot :=
  ⟨sid, c, "Chan", 100, 1000, 10, t⟩

/-- Upserting only videos `v1` … `v6`, in loop order: what the video table
actually receives in Scenario E (the loop aborts at `v7`). -/
def upsertSix (c : String) (vs : List Video) : List Video :=
  upsertVideo (upsertVideo (upsertVideo (upsertVideo (upsertVideo
    (upsertVideo vs c ⟨some "v1", "t1", 1, 0, 0⟩ "v1")
    c ⟨some "v2", "t2", 2, 0, 0⟩ "v2")
    c ⟨some "v3", "t3", 3, 0, 0⟩ "v3")
    c ⟨some "v4", "t4", 4, 0, 0⟩ "v4")
    c ⟨some "v5", "t5", 5, 0, 0⟩ "v5")
    c ⟨some "v6", "t6", 6, 0, 0⟩ "v6"

/-- The single `try` wrapped around the whole loop in
`_update_video_records` makes the raise at `v7` abandon the remaining
items: six upserts happen and the count returned is 6. -/
theorem update_video_records_ten (c : String) (vs : List Video) :
    update_video_records (fun v => v == "v7") tenVideos c vs =
      (6, upsertSix c vs) := rfl

/-- **C2 counterexample**: in the Scenario E run (10 videos fetched,
upserting `v7` raises) the attempt does complete, but `videos_synced` is 6
— not 9 — `v8`…`v10` were never upserted, and the `SyncMetrics` error
counter records nothing (it stays 0): the loop is aborted by the failure,
contradicting the claim. -/
theorem video_upsert_abort_counterexample :
    (findSync (perform_sync (envTen false 2 1) dbOneRunning 1 "C1") 1).map
        (fun r => r.sync_status) = some "completed" ∧
    (findSync (perform_sync (envTen false 2 1) dbOneRunning 1 "C1") 1).map
        (fun r => r.videos_synced) = some 6 ∧
    ((findSync (perform_sync (envTen false 2 1) dbOneRunning 1 "C1") 1).map
        (fun r => r.videos_synced) ≠ some 9) ∧
    (perform_sync (envTen false 2 1) dbOneRunning 1 "C1").videos.find?
        (fun v => v.video_id == "v8") = none ∧
    (perform_sync (envTen false 2 1) dbOneRunning 1 "C1").metrics.map
        (fun m => m.api_errors) = [0] := by
  decide

/-- **C2 amended**: in a Scenario E run the attempt still transitions to
`completed` and the error for `v7` lands neither in
`SyncRecord.error_message` nor in any `SyncMetrics` error counter (the row
is written with counters 0) — but the loop aborts at the failing video:
only `v1`…`v6` are upserted and `videos_synced = 6`, not 9. -/
theorem video_upsert_abort_amended (db : DB) (sid : Nat) (c : String)
    (r : SyncRecord) (w : Bool) (t d : ℚ)
    (hr : findSync db sid = some r) :
    findSync (perform_sync (envTen w t d) db sid c) sid =
      some (completeUpd t d 6 12 r) ∧
    (completeUpd t d 6 12 r).sync_status = "completed" ∧
    (completeUpd t d 6 12 r).videos_synced = 6 ∧
    (completeUpd t d 6 12 r).error_message = r.error_message ∧
    (perform_sync (envTen w t d) db sid c).videos = upsertSix c db.videos ∧
    (perform_sync (envTen w t d) db sid c).metrics =
      db.metrics ++ [metricsRow sid c d 12 6] := by
  have hstep : perform_sync (envTen w t d) db sid c =
      { db with
          syncs := updateFirst (fun x => x.sync_id == sid)
            (completeUpd t d 6 12) db.syncs
          snapshots := db.snapshots ++ [snapTen sid c t]
          videos := upsertSix c db.videos
          channels := update_channel_record w chanDataTen c db.channels
          metrics := db.metrics ++ [metricsRow sid c d 12 6] } := rfl
  refine ⟨?_, rfl, rfl, rfl, ?_, ?_⟩
  · rw [hstep]
    unfold findSync at hr ⊢
    rw [find?_updateFirst_self (p := fun x => x.sync_id == sid)
      (f := completeUpd t d 6 12) (fun x => rfl) db.syncs, hr]
    rfl
  · rw [hstep]
  · rw [hstep]

/-- The amended Scenario E at the concrete store. -/
theorem video_upsert_abort_amended_witness :
    findSync (perform_sync (envTen false 2 1) dbOneRunning 1 "C1") 1 =
      some (completeUpd 2 1 6 12 (recRunning 1 "C1")) ∧
    (completeUpd 2 1 6 12 (recRunning 1 "C1")).sync_status = "completed" ∧
    (completeUpd 2 1 6 12 (recRunning 1 "C1")).videos_synced = 6 ∧
    (completeUpd 2 1 6 12 (recRunning 1 "C1")).error_message =
      (recRunning 1 "C1").error_message ∧
    (perform_sync (envTen false 2 1) dbOneRunning 1 "C1").videos =
      upsertSix "C1" dbOneRunning.videos ∧
    (perform_sync (envTen false 2 1) dbOneRunning 1 "C1").metrics =
      dbOneRunning.metrics ++ [metricsRow 1 "C1" 1 12 6] :=
  video_upsert_abort_amended dbOneRunning 1 "C1" (recRunning 1 "C1") false 2 1
    (by decide)

/-- Modelled from the spec sentence behind C7, for a refinement comparison
(not source code): recommendation "fresh" below the stale-soon band,
"stale soon" when the age is within **4** hours of the staleness threshold
(25 h, the age beyond which the code flags stale), "stale" once the age
exceeds the threshold. -/
def specRecommendation (age : ℚ) : String :=
  if 25 < age then "Data is stale - sync recommended"
  else if 25 - age ≤ 4 then
    "Data will be stale soon - sync will run automatically"
  else "Data is fresh"

/-- A store with one completed sync for `C1`, finished at time 0. -/
def dbFreshC7 : DB := ⟨[recCompleted 3 "C1" 0], [], [], [], [], []⟩

/-- **C7 counterexample**: at age 20.5 h the endpoint answers "stale soon"
(its band starts strictly above 20 h, i.e. 5 h below the threshold 25),
while the claim's 4-hour band says "fresh" — the claim's band width is
wrong. -/
theorem freshness_band_counterexample :
    get_data_freshness dbFreshC7 (41/2) "C1" =
      some ⟨some (41/2 - 0), false,
        "Data will be stale soon - sync will run automatically"⟩ ∧
    specRecommendation ((41:ℚ)/2 - 0) = "Data is fresh" := by
  have hlc : latestCompleted dbFreshC7 "C1" = some (recCompleted 3 "C1" 0) :=
    rfl
  have h1 : ¬((41:ℚ)/2 - 0 > 25) := by norm_num
  have hd : decide ((41:ℚ)/2 - 0 > 25) = false := decide_eq_false h1
  have h2 : (41:ℚ)/2 - 0 > 20 := by norm_num
  constructor
  · simp only [get_data_freshness, hlc, recCompleted]
    simp [hd, h2]
    constructor
    · norm_num
    · rw [if_neg (by norm_num), if_pos (by norm_num)]
  · unfold specRecommendation
    rw [if_neg (by norm_num), if_neg (by norm_num)]

/-- **C7 amended**: for a channel with a completed sync the endpoint
returns the age in hours, `is_stale` exactly when the age exceeds 25 h,
and the recommendation is "stale" above 25 h, "stale soon" on the
half-open band `20 < age ≤ 25` (within **5** hours of the threshold), and
"fresh" at ages up to 20 h; with no completed sync it reports stale with
the initial-sync-required recommendation. -/
theorem freshness_bands_amended (db : DB) (now : ℚ) (c : String) :
    (latestCompleted db c = none →
      get_data_freshness db now c =
        some ⟨none, true, "No sync found - initial sync required"⟩) ∧
    (∀ r t info, latestCompleted db c = some r → r.completed_at = some t →
      get_data_freshness db now c = some info →
      info.data_age_hours = some (now - t) ∧
      (info.is_stale = true ↔ 25 < now - t) ∧
      (info.recommendation = "Data is stale - sync recommended" ↔
        25 < now - t) ∧
      (info.recommendation =
          "Data will be stale soon - sync will run automatically" ↔
        (20 < now - t ∧ now - t ≤ 25)) ∧
      (info.recommendation = "Data is fresh" ↔ now - t ≤ 20)) := by
  have s1ne2 : ("Data is stale - sync recommended" : String) ≠
      "Data will be stale soon - sync will run automatically" := by decide
  have s1ne3 : ("Data is stale - sync recommended" : String) ≠
      "Data is fresh" := by decide
  have s2ne3 : ("Data will be stale soon - sync will run automatically" :
      String) ≠ "Data is fresh" := by decide
  constructor
  · intro h
    simp [get_data_freshness, h]
  · intro r t info hr ht hinfo
    simp only [get_data_freshness, hr, ht] at hinfo
    obtain rfl : _ = info := Option.some_inj.mp hinfo
    by_cases h25 : (25:ℚ) < now - t
    · have hd : decide (now - t > 25) = true := decide_eq_true h25
      have hn20 : ¬(now - t ≤ 20) := not_le.mpr (by linarith)
      have hn25 : ¬(now - t ≤ 25) := not_le.mpr h25
      refine ⟨rfl, ?_, ?_, ?_, ?_⟩ <;>
        simp [hd, h25, hn20, hn25, s1ne2, s1ne3]
    · have hd : decide (now - t > 25) = false := decide_eq_false h25
      have h25' : now - t ≤ 25 := not_lt.mp h25
      by_cases h20 : (20:ℚ) < now - t
      · have hn20 : ¬(now - t ≤ 20) := not_le.mpr h20
        refine ⟨rfl, ?_, ?_, ?_, ?_⟩ <;>
          simp [hd, h25, h25', h20, hn20, Ne.symm s1ne2, s2ne3]
      · have h20' : now - t ≤ 20 := not_lt.mp h20
        refine ⟨rfl, ?_, ?_, ?_, ?_⟩ <;>
          simp [hd, h25, h20, h20', Ne.symm s1ne3, Ne.symm s2ne3]

/-- The amended bands at concrete stores: the no-sync branch, and a
completed sync read 10 hours later (fresh). -/
theorem freshness_bands_amended_witness :
    get_data_freshness emptyDB 5 "C7" =
      some ⟨none, true, "No sync found - initial sync required"⟩ ∧
    ((⟨some 10, false, "Data is fresh"⟩ : FreshnessInfo).data_age_hours =
        some ((10:ℚ) - 0) ∧
      ((⟨some 10, false, "Data is fresh"⟩ : FreshnessInfo).is_stale = true ↔
        (25:ℚ) < 10 - 0) ∧
      ((⟨some 10, false, "Data is fresh"⟩ : FreshnessInfo).recommendation =
          "Data is stale - sync recommended" ↔ (25:ℚ) < 10 - 0) ∧
      ((⟨some 10, false, "Data is fresh"⟩ : FreshnessInfo).recommendation =
          "Data will be stale soon - sync will run automatically" ↔
        ((20:ℚ) < 10 - 0 ∧ (10:ℚ) - 0 ≤ 25)) ∧
      ((⟨some 10, false, "Data is fresh"⟩ : FreshnessInfo).recommendation =
          "Data is fresh" ↔ (10:ℚ) - 0 ≤ 20)) :=
  ⟨(freshness_bands_amended emptyDB 5 "C7").1 (by decide),
   (freshness_bands_amended dbFreshC7 10 "C1").2 (recCompleted 3 "C1" 0) 0
     ⟨some 10, false, "Data is fresh"⟩ rfl rfl
     (by
       have hlc : latestCompleted dbFreshC7 "C1" =
           some (recCompleted 3 "C1" 0) := rfl
       have h1 : ¬((10:ℚ) - 0 > 25) := by norm_num
       have hd : decide ((10:ℚ) - 0 > 25) = false := decide_eq_false h1
       have h2 : ¬((10:ℚ) - 0 > 20) := by norm_num
       simp only [get_data_freshness, hlc, recCompleted]
       simp [hd, h2]
       norm_num)⟩
